import Mathlib

/-!
A shallow embedding of `main.py` from the CARLA sensor-configuration dataset
generator.  The script parses YAML into in-memory descriptors (`SensorInfo`,
`ScenarioInfo`, `Job`), sequences CARLA API calls (modelled here as event
traces), and writes captured frames to a directory tree (modelled as lists of
`WriteOp`s on paths given by component lists).  Python floats are modelled as
rationals, Python exceptions as a `PyErr` value threaded through `Except`, and
the CARLA actor handles as natural-number identifiers.
-/

namespace CarlaGen

/-- Python values produced by `yaml.load`: scalars, lists and string-keyed
dictionaries.  Numbers are modelled as rationals. -/
inductive Yaml where
  | null
  | bool (b : Bool)
  | num (q : ℚ)
  | str (s : String)
  | list (xs : List Yaml)
  | map (kvs : List (String × Yaml))

/-- The Python exception classes the script distinguishes: `KeyError` and
`IndexError` are caught by `JobYamlLoader.load_all`; every other exception
class (`TypeError`, `FileExistsError`, `AttributeError`, ...) is collapsed
into `otherError` since the script never catches any of them. -/
inductive PyErr where
  | keyError
  | indexError
  | otherError
deriving DecidableEq, Repr

/-- Python dictionary subscript `d[k]`: `KeyError` when the key is missing,
`TypeError` (here `otherError`) when the subscripted value is not a dict. -/
def Yaml.getKey : Yaml → String → Except PyErr Yaml
  | .map kvs, k =>
    match kvs.lookup k with
    | some v => .ok v
    | none => .error .keyError
  | _, _ => .error .otherError

/-- Python truthiness, as used by `if yaml_sensor_info['attribute']:`. -/
def Yaml.truthy : Yaml → Bool
  | .null => false
  | .bool b => b
  | .num q => if q = 0 then false else true
  | .str s => if s = "" then false else true
  | .list xs => !xs.isEmpty
  | .map kvs => !kvs.isEmpty

/-- Conversion of a Python value to a float, as performed by the CARLA binding
for `carla.Location` / `carla.Rotation` arguments; a non-numeric argument
raises `TypeError` (booleans convert because `bool` subclasses `int`). -/
def Yaml.asNum : Yaml → Except PyErr ℚ
  | .num q => .ok q
  | .bool b => .ok (if b then 1 else 0)
  | _ => .error .otherError

/-- Conversion guard: `os.path.abspath` (and similar) applied to a non-string raises
`TypeError`; strings pass through. -/
def Yaml.asStr : Yaml → Except PyErr String
  | .str s => .ok s
  | _ => .error .otherError

/-- Python `for x in y`: a list yields its elements, a dict its keys, a
string its characters; scalars raise `TypeError`. -/
def Yaml.pyIter : Yaml → Except PyErr (List Yaml)
  | .list xs => .ok xs
  | .map kvs => .ok (kvs.map fun kv => .str kv.1)
  | .str s => .ok (s.toList.map fun c => .str (String.singleton c))
  | _ => .error .otherError

/-- Model of `carla.Location`: pure geometric data. -/
structure Location where
  x : ℚ
  y : ℚ
  z : ℚ
deriving DecidableEq, Repr

/-- Model of `carla.Rotation`: pure geometric data. -/
structure Rotation where
  pitch : ℚ
  yaw : ℚ
  roll : ℚ
deriving DecidableEq, Repr

/-- Model of `carla.Transform`: a location / rotation pair. -/
structure Transform where
  location : Location
  rotation : Rotation
deriving DecidableEq, Repr

/-- Class `SensorInfo` from `main.py`: the blueprint identifier (stored untyped, as
Python does), the mounting transform, and the attribute dictionary
(initialised to an empty dict by `__init__`). -/
structure SensorInfo where
  blueprint_name : Yaml
  transform : Transform
  «attribute» : Yaml

/-- One iteration of the sensor-decoding loop in `JobYamlLoader.load_all`:
look up `blueprint_name` and `transform`, build the transform from the six
coordinate entries (the three `carla.Location` arguments are looked up and
converted before the three `carla.Rotation` ones, following Python's
left-to-right evaluation), then install the `attribute` dict when truthy. -/
def decodeSensorInfo (yaml_sensor_info : Yaml) : Except PyErr SensorInfo := do
  let blueprint_name ← yaml_sensor_info.getKey "blueprint_name"
  let yaml_transform ← yaml_sensor_info.getKey "transform"
  let xv ← yaml_transform.getKey "x"
  let yv ← yaml_transform.getKey "y"
  let zv ← yaml_transform.getKey "z"
  let x ← xv.asNum
  let y ← yv.asNum
  let z ← zv.asNum
  let pv ← yaml_transform.getKey "pitch"
  let yawv ← yaml_transform.getKey "yaw"
  let rv ← yaml_transform.getKey "roll"
  let pitch ← pv.asNum
  let yaw ← yawv.asNum
  let roll ← rv.asNum
  let attr ← yaml_sensor_info.getKey "attribute"
  .ok { blueprint_name := blueprint_name,
        transform := ⟨⟨x, y, z⟩, ⟨pitch, yaw, roll⟩⟩,
        «attribute» := if attr.truthy then attr else .map [] }

/-- The whole sensor-decoding loop of `JobYamlLoader.load_all` for one YAML
document: iterate the document and decode each entry in order. -/
def decodeSensorInfoList (yaml_data : Yaml) : Except PyErr (List SensorInfo) := do
  let entries ← yaml_data.pyIter
  entries.mapM decodeSensorInfo

/-- POSIX `os.path.join` for two components: an absolute second component
discards the first. -/
def pathJoin (a b : String) : String :=
  if b.startsWith "/" then b
  else if a = "" then b
  else if a.endsWith "/" then a ++ b
  else a ++ "/" ++ b

/-- Class `ScenarioInfo` from `main.py`.  All fields except `record_path` are stored
untyped, exactly as Python keeps whatever the YAML gave; `record_path` is
computed as `os.path.join(app_root_path, os.path.abspath(path))` by the
constructor. -/
structure ScenarioInfo where
  name : Yaml
  record_path : String
  time_start : Yaml
  time_end : Yaml
  ego_vehicle_actor_id : Yaml

/-- Constructor `ScenarioInfo.__init__`: `resolve` stands for `os.path.abspath`, whose
result depends on the process working directory and is kept abstract;
`os.path.abspath` raises `TypeError` on a non-string argument. -/
def ScenarioInfo.init (appRoot : String) (resolve : String → String)
    (name path t_start t_end ego_actor_id : Yaml) : Except PyErr ScenarioInfo := do
  let p ← path.asStr
  .ok { name := name, record_path := pathJoin appRoot (resolve p),
        time_start := t_start, time_end := t_end,
        ego_vehicle_actor_id := ego_actor_id }

/-- The decoding of one entry `d` of the scenario index file in
`ScenarioInfoYamlLoader.load_all`:
`ScenarioInfo(d['name'], d['record_file'], d['time']['start'],
d['time']['end'], d['ego_vehicle_actor_id'])`, arguments evaluated left to
right. -/
def decodeScenarioInfo (appRoot : String) (resolve : String → String)
    (d : Yaml) : Except PyErr ScenarioInfo := do
  let name ← d.getKey "name"
  let record_file ← d.getKey "record_file"
  let tm ← d.getKey "time"
  let t_start ← tm.getKey "start"
  let tm2 ← d.getKey "time"
  let t_end ← tm2.getKey "end"
  let ego ← d.getKey "ego_vehicle_actor_id"
  ScenarioInfo.init appRoot resolve name record_file t_start t_end ego

/-- The decode loop of `ScenarioInfoYamlLoader.load_all` over the parsed YAML
document (the part after the file has been read; no exception is caught
here, so any decoding error propagates out of the loader). -/
def ScenarioInfoYamlLoader.load_all (appRoot : String) (resolve : String → String)
    (yaml_data : Yaml) : Except PyErr (List ScenarioInfo) := do
  let ds ← yaml_data.pyIter
  ds.mapM (decodeScenarioInfo appRoot resolve)

/-- A write of one captured frame to disk: the directory, as a list of path
components, and the file name. -/
structure WriteOp where
  dir : List String
  filename : String
deriving DecidableEq, Repr

/-- The `Sensor` class of `main.py`.  The CARLA world and vehicle handles are
modelled as numeric identifiers and the spawned sensor actor as an optional
identifier (`None` until `spawn` runs). -/
structure Sensor where
  sensor_info : SensorInfo
  seq_id : ℕ
  is_recording : Bool
  sensor_actor : Option ℕ
  world : ℕ
  vehicle_actor : ℕ
  output_directory_path : List String
  record_counter_target : ℕ
  record_counter_current : ℕ

/-- Constructor `Sensor.__init__`. -/
def Sensor.init (info : SensorInfo) (seq_id : ℕ) (world target : ℕ)
    (output_dir : List String) : Sensor :=
  { sensor_info := info, seq_id := seq_id, is_recording := false,
    sensor_actor := none, world := world, vehicle_actor := target,
    output_directory_path := output_dir,
    record_counter_target := 0, record_counter_current := 0 }

/-- Method `Sensor.record_this`: raise the pending-capture target by one. -/
def Sensor.record_this (s : Sensor) : Sensor :=
  { s with record_counter_target := s.record_counter_target + 1 }

/-- Method `Sensor.start_recording`. -/
def Sensor.start_recording (s : Sensor) : Sensor :=
  { s with is_recording := true }

/-- Method `Sensor.stop_recording`. -/
def Sensor.stop_recording (s : Sensor) : Sensor :=
  { s with is_recording := false }

/-- The three kinds of measurement CARLA delivers to the script's callbacks;
`frame` is the simulator frame number used to name the output file.  Radar
detection rows carry velocity, azimuth, altitude and depth. -/
inductive SensorData where
  | image (frame : ℕ)
  | lidar (frame : ℕ)
  | radar (frame : ℕ) (detections : List (ℚ × ℚ × ℚ × ℚ))

/-- Method `Sensor._data_callback`: do nothing while not recording or once the
pending capture count is exhausted; otherwise count the capture and save the
measurement under `<output_directory_path>/<seq_id>/<frame>.<ext>` with the
extension determined by the measurement type. -/
def Sensor.data_callback (s : Sensor) (data : SensorData) : Sensor × List WriteOp :=
  if !s.is_recording then (s, [])
  else if s.record_counter_current ≥ s.record_counter_target then (s, [])
  else
    let s' := { s with record_counter_current := s.record_counter_current + 1 }
    let save_path := s.output_directory_path ++ [toString s.seq_id]
    match data with
    | .image frame => (s', [⟨save_path, toString frame ++ ".png"⟩])
    | .lidar frame => (s', [⟨save_path, toString frame ++ ".ply"⟩])
    | .radar frame _ => (s', [⟨save_path, toString frame ++ ".csv"⟩])

/-- The operations the script ever applies to a `Sensor` after construction:
the three recording-control methods, and a simulator callback delivery. -/
inductive SensorOp where
  | start_recording
  | stop_recording
  | record_this
  | callback (data : SensorData)

/-- Apply one operation to a sensor, collecting the disk writes it performs. -/
def Sensor.step (s : Sensor) : SensorOp → Sensor × List WriteOp
  | .start_recording => (s.start_recording, [])
  | .stop_recording => (s.stop_recording, [])
  | .record_this => (s.record_this, [])
  | .callback data => s.data_callback data

/-- Apply a sequence of operations to a sensor, collecting all disk writes. -/
def Sensor.run (s : Sensor) : List SensorOp → Sensor × List WriteOp
  | [] => (s, [])
  | op :: ops =>
    let step := s.step op
    let rest := step.1.run ops
    (rest.1, step.2 ++ rest.2)

/-- The `Job` class of `main.py`: its name, the optional runtime handles
(`None` until `setup` runs, reset by `clean`), the live sensor objects, the
decoded sensor descriptors, and the bound scenario. -/
structure Job where
  name : String
  client : Option ℕ
  world : Option ℕ
  vehicle_actor : Option ℕ
  sensor_objs : List Sensor
  sensor_infos : List SensorInfo
  scenario_info : Option ScenarioInfo

/-- Constructor `Job.__init__`. -/
def Job.init (job_name : String) (sensor_infos : List SensorInfo) : Job :=
  { name := job_name, client := none, world := none, vehicle_actor := none,
    sensor_objs := [], sensor_infos := sensor_infos, scenario_info := none }

/-- Property `Job.output_directory_path`:
`os.path.join(runtime.io_output_directory, self.name, self.scenario_info.name)`,
as a component list.  `os.path.join` needs the bound scenario's name to be a
string. -/
def Job.output_directory_path (io_output_directory : String) (j : Job)
    (scenario_name : String) : List String :=
  [io_output_directory, j.name, scenario_name]

/-- The body of the per-file loop of `JobYamlLoader.load_all`: decode the
file's sensor entries, appending a new `Job` (named after the file with every
`.yaml` substring removed) on success, skipping the file on `KeyError` or
`IndexError`, and propagating every other exception. -/
def loadOneJob (job_list : List Job) (f : String × Yaml) : Except PyErr (List Job) :=
  match decodeSensorInfoList f.2 with
  | .ok sensor_info_list => .ok (job_list ++ [Job.init (f.1.replace ".yaml" "") sensor_info_list])
  | .error .indexError => .ok job_list
  | .error .keyError => .ok job_list
  | .error e => .error e

/-- Python `str.endswith`, modelled on the underlying character list (the
built-in `String.endsWith` is not kernel-reducible). -/
def pyEndsWith (s suffix : String) : Bool :=
  suffix.data.isSuffixOf s.data

/-- Method `JobYamlLoader.load_all` over the directory listing: `files` pairs each
file name found in the input directory with its parsed YAML document.  Only
names ending in `.yaml` are considered (a missing directory or an empty
listing yields the empty job list, as in the early returns of the source). -/
def JobYamlLoader.load_all (files : List (String × Yaml)) : Except PyErr (List Job) :=
  (files.filter (fun f => pyEndsWith f.1 ".yaml")).foldlM loadOneJob []

/-- The sensor spawning loop of `Job.setup`: one `Sensor` per decoded
descriptor, numbered by the running `sensor_counter` starting at 0. -/
def setupSensorsLoop (infos : List SensorInfo) (sensor_counter : ℕ)
    (world vehicle : ℕ) (out : List String) : List Sensor :=
  match infos with
  | [] => []
  | info :: rest =>
    Sensor.init info sensor_counter world vehicle out ::
      setupSensorsLoop rest (sensor_counter + 1) world vehicle out

/-- The sensor-spawning part of `Job.setup`, producing the job's
`sensor_objs` list. -/
def Job.setupSensors (j : Job) (world vehicle : ℕ) (out : List String) : List Sensor :=
  setupSensorsLoop j.sensor_infos 0 world vehicle out

/-- The CARLA commands issued by `Job.exec`, as observable events:
`start_recording` / `stop_recording` / `record_this` on a sensor (identified
by its `seq_id`) and a `client.replay_file` seek of the scenario record at a
given replay time. -/
inductive JobEvent where
  | start_recording (seq_id : ℕ)
  | replay_seek (record_path : String) (t : ℚ)
  | record_this (seq_id : ℕ)
  | stop_recording (seq_id : ℕ)
deriving DecidableEq, Repr

/-- The replay-time computation at the top of `Job.exec`:
`current_t = current_t + delta_t + random.uniform(-r, r)` appended on each of
the `max_count` rounds.  `rand i` is the i-th value drawn from
`random.uniform`; reals are modelled as rationals. -/
def replayTimesLoop (delta_t : ℚ) (rand : ℕ → ℚ) :
    ℕ → ℚ → ℕ → List ℚ
  | 0, _, _ => []
  | n + 1, current_t, i =>
    let t := current_t + delta_t + rand i
    t :: replayTimesLoop delta_t rand n t (i + 1)

/-- The full `replay_times` list of `Job.exec`:
`delta_t = (time_end - time_start) / (carla_sim_max_count + 1)` and
`max_count` accumulation rounds starting from `time_start`. -/
def replayTimes (time_start time_end : ℚ) (max_count : ℕ) (rand : ℕ → ℚ) : List ℚ :=
  replayTimesLoop ((time_end - time_start) / (max_count + 1)) rand max_count time_start 0

/-- The `while counter < max_counter` loop of `Job.exec`: on the first
iteration start recording on every sensor; then, per iteration, seek the
record file to `replay_times[counter-1]` (the counter is incremented before
the seek) and send `record_this` to every sensor. -/
def execLoop (sensor_ids : List ℕ) (record_path : String) (times : List ℚ)
    (max_counter : ℕ) (counter : ℕ) : List JobEvent :=
  if _h : counter < max_counter then
    (if counter = 0 then sensor_ids.map .start_recording else []) ++
    [.replay_seek record_path (times.getD counter 0)] ++
    sensor_ids.map .record_this ++
    execLoop sensor_ids record_path times max_counter (counter + 1)
  else []
termination_by max_counter - counter

/-- The event trace of `Job.exec` for a job whose sensors carry the given
`seq_id`s: the main loop followed by `stop_recording` on every sensor.  The
scenario's `time_start` and `time_end` enter the `total_t` subtraction, so
they are numeric here (on non-numeric YAML values Python would raise before
any event is emitted). -/
def Job.execTrace (sensor_ids : List ℕ) (record_path : String)
    (time_start time_end : ℚ) (max_count : ℕ) (rand : ℕ → ℚ) : List JobEvent :=
  execLoop sensor_ids record_path (replayTimes time_start time_end max_count rand)
      max_count 0
    ++ sensor_ids.map .stop_recording

/-- The CARLA commands issued by `Job.clean`: `sensor_actor.stop()` per
sensor, then one `carla.command.DestroyActor` per sensor actor inside the
single `apply_batch` call. -/
inductive CleanAction where
  | stop_actor (actor : ℕ)
  | destroy_actor (actor : ℕ)
deriving DecidableEq, Repr

/-- Method `Job.clean`: collect every sensor's actor and stop it (`None.stop()`
would raise `AttributeError`, hence `otherError` on an unspawned sensor),
submit the destruction batch, and reset `client`, `world`, `vehicle_actor`
and `sensor_objs`. -/
def Job.clean (j : Job) : Except PyErr (List CleanAction × Job) := do
  let sensor_actors ← j.sensor_objs.mapM (fun s =>
    match s.sensor_actor with
    | some a => Except.ok a
    | none => Except.error PyErr.otherError)
  .ok (sensor_actors.map CleanAction.stop_actor
         ++ sensor_actors.map CleanAction.destroy_actor,
       { j with client := none, world := none, vehicle_actor := none,
                sensor_objs := [] })

/-- A file-system tree, for the node at the job's output path. -/
inductive FsTree where
  | file
  | dir (children : List (String × FsTree))

/-- Test `os.path.isdir` at the modelled node. -/
def isDirNode : Option FsTree → Bool
  | some (.dir _) => true
  | _ => false

/-- The output-directory preparation at the top of `Job.setup`, acting on the
node at `output_directory_path` (`none` = the path does not exist):
`if os.path.exists(p) and os.path.isdir(p): shutil.rmtree(p)` removes the
whole tree, then `os.makedirs(p)` creates a fresh empty directory, raising
`FileExistsError` (here `otherError`) if the path still exists.  This runs
before any sensor is spawned, so before any frame can be written. -/
def prepOutputDirectory (node : Option FsTree) : Except PyErr (Option FsTree) :=
  let after_rmtree := if node.isSome && isDirNode node then none else node
  match after_rmtree with
  | none => .ok (some (.dir []))
  | some _ => .error .otherError

/-- A concrete sensor descriptor, used to instantiate theorems. -/
def sampleInfo : SensorInfo :=
  ⟨.str "sensor.camera.rgb", ⟨⟨0, 0, 0⟩, ⟨0, 0, 0⟩⟩, .map []⟩

/-- A concrete freshly constructed sensor, used to instantiate theorems. -/
def sampleSensor : Sensor := Sensor.init sampleInfo 0 0 0 ["out"]

/-- The replay time carried by a `replay_seek` event, `none` for every other
event; used to state which seeks a trace performs, in order. -/
def seekTime : JobEvent → Option ℚ
  | .replay_seek _ t => some t
  | _ => none

/-- A concrete job with one spawned sensor, used to instantiate theorems. -/
def sampleJobLive : Job :=
  { name := "job_a", client := some 1, world := some 2, vehicle_actor := some 3,
    sensor_objs := [{ sampleSensor with sensor_actor := some 11 }],
    sensor_infos := [sampleInfo], scenario_info := none }

/-- The job produced for one decodable listing entry, `none` when the file's
sensor entries fail to decode; `load_all` keeps exactly the `some`s. -/
def jobOfFile (f : String × Yaml) : Option Job :=
  match decodeSensorInfoList f.2 with
  | .ok sensor_info_list => some (Job.init (f.1.replace ".yaml" "") sensor_info_list)
  | .error _ => none

/-- A concrete well-formed sensor entry, used to instantiate theorems. -/
def sampleEntry : Yaml :=
  .map [("blueprint_name", .str "sensor.camera.rgb"),
        ("transform", .map [("x", .num 1), ("y", .num 2), ("z", .num 3),
                            ("pitch", .num 0), ("yaw", .num 90), ("roll", .num 0)]),
        ("attribute", .map [("image_size_x", .num 800)])]

/-- A concrete directory listing: one decodable job file, one job file with
its sensor entry missing every key, and one non-YAML file. -/
def sampleListing : List (String × Yaml) :=
  [("job_a.yaml", .list [sampleEntry]),
   ("broken.yaml", .list [.map [("unrelated", .null)]]),
   ("notes.txt", .null)]

/-- Numeric value of a decimal digit character; supports reasoning about the
decimal strings `str(seq_id)` produces. -/
def charVal (c : Char) : ℕ := c.toNat - 48

/-- Value of a big-endian decimal digit string; inverse of `Nat.repr` on its
range. -/
def digitsVal (l : List Char) : ℕ := l.foldl (fun a c => 10 * a + charVal c) 0

/- ------------------------------------------------------------------ -/
/- Supporting lemmas                                                   -/
/- ------------------------------------------------------------------ -/

theorem step_counter_bounds (s : Sensor) (op : SensorOp) :
    s.record_counter_current + (s.step op).2.length ≤ (s.step op).1.record_counter_current ∧
    s.record_counter_target ≤ (s.step op).1.record_counter_target ∧
    (s.record_counter_current ≤ s.record_counter_target →
      (s.step op).1.record_counter_current ≤ (s.step op).1.record_counter_target) := by
  cases op with
  | start_recording => simp [Sensor.step, Sensor.start_recording]
  | stop_recording => simp [Sensor.step, Sensor.stop_recording]
  | record_this => simp [Sensor.step, Sensor.record_this]; omega
  | callback data =>
    by_cases hr : s.is_recording
    · by_cases hc : s.record_counter_current ≥ s.record_counter_target
      · simp [Sensor.step, Sensor.data_callback, hr, hc]
      · cases data <;> simp [Sensor.step, Sensor.data_callback, hr, hc] <;> omega
    · simp [Sensor.step, Sensor.data_callback, hr]

theorem run_counter_bounds (ops : List SensorOp) : ∀ s : Sensor,
    s.record_counter_current ≤ s.record_counter_target →
    s.record_counter_current + (s.run ops).2.length ≤ (s.run ops).1.record_counter_current ∧
    (s.run ops).1.record_counter_current ≤ (s.run ops).1.record_counter_target := by
  induction ops with
  | nil => intro s h; simpa [Sensor.run] using h
  | cons op ops ih =>
    intro s h
    have hs := step_counter_bounds s op
    have hrest := ih (s.step op).1 (hs.2.2 h)
    simp only [Sensor.run, List.length_append]
    exact ⟨by omega, hrest.2⟩

/- ------------------------------------------------------------------ -/
/- Claims                                                              -/
/- ------------------------------------------------------------------ -/

/-- C1: a sensor's data callback persists data only while the sensor is
recording and its pending capture count is not exhausted: delivered while not
recording, or while `record_counter_current >= record_counter_target`,
nothing is written and the sensor's state is unchanged. -/
theorem data_callback_noop_unless_capturing (s : Sensor) (data : SensorData)
    (h : s.is_recording = false ∨ s.record_counter_target ≤ s.record_counter_current) :
    s.data_callback data = (s, []) := by
  rcases h with h | h <;> by_cases hr : s.is_recording <;>
    simp_all [Sensor.data_callback]

/-- Witness for C1 at a freshly constructed (not yet recording) sensor. -/
theorem data_callback_noop_unless_capturing_witness :
    (sampleSensor.is_recording = false ∨
      sampleSensor.record_counter_target ≤ sampleSensor.record_counter_current) ∧
    sampleSensor.data_callback (.image 42) = (sampleSensor, []) :=
  ⟨Or.inl rfl, data_callback_noop_unless_capturing sampleSensor (.image 42) (Or.inl rfl)⟩

/-- C9: `record_counter_current` never exceeds `record_counter_target`: every
sensor operation (`start_recording`, `stop_recording`, `record_this`, and the
data callback) preserves `record_counter_current ≤ record_counter_target`, a
single callback invocation raises `record_counter_current` by at most one,
and a sensor started from `__init__` persists at most
`record_counter_target` frames over any operation sequence. -/
theorem record_counter_never_exceeds_target :
    (∀ (s : Sensor) (op : SensorOp),
      s.record_counter_current ≤ s.record_counter_target →
      (s.step op).1.record_counter_current ≤ (s.step op).1.record_counter_target) ∧
    (∀ (s : Sensor) (data : SensorData),
      (s.data_callback data).1.record_counter_current ≤ s.record_counter_current + 1) ∧
    (∀ (info : SensorInfo) (i w v : ℕ) (out : List String) (ops : List SensorOp),
      ((Sensor.init info i w v out).run ops).2.length ≤
        ((Sensor.init info i w v out).run ops).1.record_counter_target) := by
  refine ⟨fun s op h => (step_counter_bounds s op).2.2 h, fun s data => ?_, ?_⟩
  · by_cases hr : s.is_recording
    · by_cases hc : s.record_counter_current ≥ s.record_counter_target
      · simp [Sensor.data_callback, hr, hc]
      · cases data <;> simp [Sensor.data_callback, hr, hc]
    · simp [Sensor.data_callback, hr]
  · intro info i w v out ops
    have h0 : (Sensor.init info i w v out).record_counter_current ≤
        (Sensor.init info i w v out).record_counter_target := le_refl 0
    have := run_counter_bounds ops (Sensor.init info i w v out) h0
    simp [Sensor.init] at this ⊢
    omega

/-- Witness for C9 at a concrete sensor and operation sequence. -/
theorem record_counter_never_exceeds_target_witness :
    sampleSensor.record_counter_current ≤ sampleSensor.record_counter_target ∧
    (sampleSensor.step .record_this).1.record_counter_current ≤
      (sampleSensor.step .record_this).1.record_counter_target ∧
    ((Sensor.init sampleInfo 0 0 0 ["out"]).run
        [.start_recording, .record_this, .callback (.image 1), .callback (.image 2)]).2.length ≤
      ((Sensor.init sampleInfo 0 0 0 ["out"]).run
        [.start_recording, .record_this, .callback (.image 1), .callback (.image 2)]).1.record_counter_target :=
  ⟨le_refl 0,
   record_counter_never_exceeds_target.1 sampleSensor .record_this (le_refl 0),
   record_counter_never_exceeds_target.2.2 sampleInfo 0 0 0 ["out"]
     [.start_recording, .record_this, .callback (.image 1), .callback (.image 2)]⟩

/-- C10: when the job's output directory already exists as a directory,
`Job.setup` deletes the whole existing tree and recreates the directory
empty; whenever the directory-preparation step succeeds, the output
directory is a fresh empty one, never a pre-existing directory appended
into. -/
theorem output_directory_recreated_empty :
    (∀ children, prepOutputDirectory (some (.dir children)) = .ok (some (.dir []))) ∧
    (∀ node result, prepOutputDirectory node = .ok result → result = some (.dir [])) := by
  constructor
  · intro children; rfl
  · intro node result h
    cases node with
    | none => simpa [prepOutputDirectory] using h.symm
    | some t =>
      cases t with
      | file => simp [prepOutputDirectory, isDirNode] at h
      | dir children => simpa [prepOutputDirectory, isDirNode] using h.symm

/-- Witness for C10 at a concrete non-empty pre-existing directory. -/
theorem output_directory_recreated_empty_witness :
    prepOutputDirectory (some (.dir [("0", .dir []), ("stale.png", .file)])) =
      .ok (some (.dir [])) ∧
    prepOutputDirectory none = .ok (some (.dir [])) ∧
    (some (FsTree.dir []) : Option FsTree) = some (.dir []) :=
  ⟨output_directory_recreated_empty.1 [("0", .dir []), ("stale.png", .file)],
   rfl,
   output_directory_recreated_empty.2 none (some (.dir [])) rfl⟩

theorem mapM_extract_actors (ss : List Sensor) : ∀ actors : List ℕ,
    ss.map Sensor.sensor_actor = actors.map some →
    ss.mapM (fun s =>
        match s.sensor_actor with
        | some a => Except.ok a
        | none => Except.error PyErr.otherError) =
      (Except.ok actors : Except PyErr (List ℕ)) := by
  induction ss with
  | nil =>
    intro actors h
    cases actors with
    | nil => rfl
    | cons a as => simp at h
  | cons s ss ih =>
    intro actors h
    cases actors with
    | nil => simp at h
    | cons a as =>
      simp only [List.map_cons, List.cons.injEq] at h
      rw [List.mapM_cons, h.1, ih as h.2]
      rfl

/-- C8: after `Job.clean` returns, every sensor actor has been stopped and
submitted for destruction in the batch, and the job's `client`, `world`,
`vehicle_actor` and `sensor_objs` are reset to `None` / the empty list, the
name and decoded sensor descriptors being kept for the next setup. -/
theorem clean_stops_destroys_and_resets (j : Job) (actors : List ℕ)
    (h : j.sensor_objs.map Sensor.sensor_actor = actors.map some) :
    j.clean = .ok (actors.map CleanAction.stop_actor
                     ++ actors.map CleanAction.destroy_actor,
        { j with client := none, world := none, vehicle_actor := none,
                 sensor_objs := [] }) ∧
    (∀ s ∈ j.sensor_objs, ∃ a, s.sensor_actor = some a ∧
      CleanAction.stop_actor a ∈
        actors.map CleanAction.stop_actor ++ actors.map CleanAction.destroy_actor ∧
      CleanAction.destroy_actor a ∈
        actors.map CleanAction.stop_actor ++ actors.map CleanAction.destroy_actor) := by
  constructor
  · unfold Job.clean
    rw [mapM_extract_actors j.sensor_objs actors h]
    rfl
  · intro s hs
    have hmem : s.sensor_actor ∈ actors.map some := by
      rw [← h]; exact List.mem_map_of_mem Sensor.sensor_actor hs
    rcases List.mem_map.1 hmem with ⟨a, ha, hsa⟩
    refine ⟨a, hsa.symm, ?_, ?_⟩
    · exact List.mem_append_left _ (List.mem_map_of_mem CleanAction.stop_actor ha)
    · exact List.mem_append_right _ (List.mem_map_of_mem CleanAction.destroy_actor ha)

/-- Witness for C8 at a concrete set-up job with one spawned sensor. -/
theorem clean_stops_destroys_and_resets_witness :
    sampleJobLive.sensor_objs.map Sensor.sensor_actor = [11].map some ∧
    sampleJobLive.clean = .ok ([11].map CleanAction.stop_actor
                                 ++ [11].map CleanAction.destroy_actor,
      { sampleJobLive with client := none, world := none, vehicle_actor := none,
                           sensor_objs := [] }) :=
  ⟨rfl, (clean_stops_destroys_and_resets sampleJobLive [11] rfl).1⟩

theorem replayTimesLoop_length (delta_t : ℚ) (rand : ℕ → ℚ) :
    ∀ (n : ℕ) (cur : ℚ) (i : ℕ), (replayTimesLoop delta_t rand n cur i).length = n := by
  intro n
  induction n with
  | zero => intro cur i; rfl
  | succ n ih => intro cur i; simp [replayTimesLoop, ih]

theorem replayTimes_length (ts te : ℚ) (maxc : ℕ) (rand : ℕ → ℚ) :
    (replayTimes ts te maxc rand).length = maxc :=
  replayTimesLoop_length _ _ _ _ _

theorem execLoop_pos_eq (ids : List ℕ) (path : String) (times : List ℚ)
    (maxc : ℕ) (hlen : times.length = maxc) :
    ∀ (fuel counter : ℕ), maxc - counter ≤ fuel → 0 < counter →
      execLoop ids path times maxc counter =
        (times.drop counter).flatMap
          (fun t => JobEvent.replay_seek path t :: ids.map JobEvent.record_this) := by
  intro fuel
  induction fuel with
  | zero =>
    intro counter hf hc
    unfold execLoop
    rw [dif_neg (by omega)]
    rw [List.drop_eq_nil_of_le (by omega)]
    rfl
  | succ fuel ih =>
    intro counter hf hc
    unfold execLoop
    by_cases h : counter < maxc
    · rw [dif_pos h, if_neg (by omega : ¬ counter = 0)]
      rw [ih (counter + 1) (by omega) (by omega)]
      have hcl : counter < times.length := by omega
      have hgd : times.getD counter 0 = times.get ⟨counter, hcl⟩ := by
        rw [List.getD_eq_getElem?_getD, List.getElem?_eq_getElem hcl]
        rfl
      rw [List.drop_eq_getElem_cons hcl, List.flatMap_cons, hgd]
      simp
    · rw [dif_neg h]
      rw [List.drop_eq_nil_of_le (by omega)]
      rfl

theorem execLoop_zero_eq (ids : List ℕ) (path : String) (times : List ℚ)
    (maxc : ℕ) (hlen : times.length = maxc) (h : 0 < maxc) :
    execLoop ids path times maxc 0 =
      ids.map JobEvent.start_recording
      ++ times.flatMap
           (fun t => JobEvent.replay_seek path t :: ids.map JobEvent.record_this) := by
  cases times with
  | nil => simp at hlen; omega
  | cons t rest =>
    unfold execLoop
    rw [dif_pos h, if_pos rfl]
    rw [execLoop_pos_eq ids path (t :: rest) maxc hlen maxc 1 (by omega) (by omega)]
    simp [List.flatMap_cons]

theorem execTrace_eq_bind (ids : List ℕ) (path : String) (ts te : ℚ)
    (maxc : ℕ) (rand : ℕ → ℚ) (h : 0 < maxc) :
    Job.execTrace ids path ts te maxc rand =
      ids.map JobEvent.start_recording
      ++ (replayTimes ts te maxc rand).flatMap
           (fun t => JobEvent.replay_seek path t :: ids.map JobEvent.record_this)
      ++ ids.map JobEvent.stop_recording := by
  unfold Job.execTrace
  rw [execLoop_zero_eq ids path _ maxc (replayTimes_length ts te maxc rand) h]

/-- C2: with a positive step count, `Job.exec` emits `start_recording` on all
sensors, then exactly `carla_sim_max_count` iterations, each a replay-seek of
the record file at the next precomputed replay time followed by one
`record_this` per sensor (each such signal raising that sensor's pending
capture count by one), and finally `stop_recording` on all sensors. -/
theorem exec_trace_structure (ids : List ℕ) (path : String) (ts te : ℚ)
    (maxc : ℕ) (rand : ℕ → ℚ) (h : 0 < maxc) :
    Job.execTrace ids path ts te maxc rand =
      ids.map JobEvent.start_recording
      ++ (replayTimes ts te maxc rand).flatMap
           (fun t => JobEvent.replay_seek path t :: ids.map JobEvent.record_this)
      ++ ids.map JobEvent.stop_recording ∧
    (replayTimes ts te maxc rand).length = maxc ∧
    ∀ s : Sensor, (s.record_this).record_counter_target = s.record_counter_target + 1 :=
  ⟨execTrace_eq_bind ids path ts te maxc rand h,
   replayTimes_length ts te maxc rand,
   fun _ => rfl⟩

/-- Witness for C2 with two sensors, two iterations, and no jitter. -/
theorem exec_trace_structure_witness :
    (0 : ℕ) < 2 ∧
    Job.execTrace [0, 1] "rec.log" 0 6 2 (fun _ => 0) =
      [0, 1].map JobEvent.start_recording
      ++ (replayTimes 0 6 2 (fun _ => 0)).flatMap
           (fun t => JobEvent.replay_seek "rec.log" t :: [0, 1].map JobEvent.record_this)
      ++ [0, 1].map JobEvent.stop_recording :=
  ⟨by decide,
   (exec_trace_structure [0, 1] "rec.log" 0 6 2 (fun _ => 0) (by decide)).1⟩

theorem replayTimesLoop_getD (delta_t : ℚ) (rand : ℕ → ℚ) :
    ∀ (n : ℕ) (cur : ℚ) (i0 k : ℕ), k < n →
      (replayTimesLoop delta_t rand n cur i0).getD k 0 =
        cur + (k + 1 : ℚ) * delta_t + ∑ j ∈ Finset.range (k + 1), rand (i0 + j) := by
  intro n
  induction n with
  | zero => intro cur i0 k hk; exact absurd hk (Nat.not_lt_zero k)
  | succ n ih =>
    intro cur i0 k hk
    cases k with
    | zero =>
      simp [replayTimesLoop, Finset.sum_range_one]
    | succ k =>
      simp only [replayTimesLoop, List.getD_cons_succ]
      rw [ih (cur + delta_t + rand i0) (i0 + 1) k (by omega)]
      rw [Finset.sum_range_succ' (fun j => rand (i0 + j)) (k + 1)]
      have harg : ∀ j, i0 + 1 + j = i0 + (j + 1) := by intro j; omega
      simp only [harg, Nat.add_zero]
      push_cast
      ring

theorem filterMap_seekTime_starts (ids : List ℕ) :
    ids.filterMap (seekTime ∘ JobEvent.start_recording) = [] := by
  induction ids with
  | nil => rfl
  | cons i ids ih => simp [seekTime, ih]

theorem filterMap_seekTime_records (ids : List ℕ) :
    ids.filterMap (seekTime ∘ JobEvent.record_this) = [] := by
  induction ids with
  | nil => rfl
  | cons i ids ih => simp [seekTime, ih]

theorem filterMap_seekTime_stops (ids : List ℕ) :
    ids.filterMap (seekTime ∘ JobEvent.stop_recording) = [] := by
  induction ids with
  | nil => rfl
  | cons i ids ih => simp [seekTime, ih]

theorem filterMap_seekTime_block (ids : List ℕ) (path : String) (times : List ℚ) :
    (times.flatMap
        (fun t => JobEvent.replay_seek path t :: ids.map JobEvent.record_this)).filterMap
        seekTime = times := by
  induction times with
  | nil => rfl
  | cons t rest ih =>
    simp [List.flatMap_cons, List.filterMap_append, seekTime,
      filterMap_seekTime_records, ih]

theorem execTrace_seeks (ids : List ℕ) (path : String) (ts te : ℚ)
    (maxc : ℕ) (rand : ℕ → ℚ) :
    (Job.execTrace ids path ts te maxc rand).filterMap seekTime =
      replayTimes ts te maxc rand := by
  by_cases h : 0 < maxc
  · rw [execTrace_eq_bind ids path ts te maxc rand h]
    simp [List.filterMap_append, filterMap_seekTime_starts,
      filterMap_seekTime_stops, filterMap_seekTime_block]
  · have hm : maxc = 0 := by omega
    subst hm
    unfold Job.execTrace execLoop
    rw [dif_neg (by omega)]
    simp [filterMap_seekTime_stops, replayTimes, replayTimesLoop]

/-- C4: sensor capture is periodic up to bounded jitter: the replay-time list
has length `carla_sim_max_count`, its k-th entry (0-based `k`, 1-based
`k + 1`) equals
`time_start + (k+1) * (time_end - time_start) / (carla_sim_max_count + 1)`
plus the sum of the first `k + 1` random draws, each lying in
`[-carla_sim_time_random, +carla_sim_time_random]`, and the loop seeks once
per entry, in list order. -/
theorem replay_times_periodic_with_bounded_jitter (ids : List ℕ) (path : String)
    (ts te r : ℚ) (maxc : ℕ) (rand : ℕ → ℚ)
    (hr : ∀ j, -r ≤ rand j ∧ rand j ≤ r) :
    (replayTimes ts te maxc rand).length = maxc ∧
    (∀ k, k < maxc →
      (replayTimes ts te maxc rand).getD k 0 =
        ts + (k + 1 : ℚ) * ((te - ts) / (maxc + 1)) +
          ∑ j ∈ Finset.range (k + 1), rand j ∧
      ∀ j ∈ Finset.range (k + 1), -r ≤ rand j ∧ rand j ≤ r) ∧
    (Job.execTrace ids path ts te maxc rand).filterMap seekTime =
      replayTimes ts te maxc rand := by
  refine ⟨replayTimes_length ts te maxc rand, ?_,
    execTrace_seeks ids path ts te maxc rand⟩
  intro k hk
  refine ⟨?_, fun j _ => hr j⟩
  have := replayTimesLoop_getD ((te - ts) / (maxc + 1)) rand maxc ts 0 k hk
  simpa [replayTimes] using this

/-- Witness for C4 at two sensors, two iterations, and zero jitter bound. -/
theorem replay_times_periodic_with_bounded_jitter_witness :
    (∀ j : ℕ, -(0 : ℚ) ≤ (fun _ : ℕ => (0 : ℚ)) j ∧ (fun _ : ℕ => (0 : ℚ)) j ≤ 0) ∧
    (replayTimes 0 6 2 (fun _ => 0)).length = 2 := by
  have h : ∀ j : ℕ, -(0 : ℚ) ≤ (fun _ : ℕ => (0 : ℚ)) j ∧ (fun _ : ℕ => (0 : ℚ)) j ≤ 0 :=
    fun _ => by norm_num
  exact ⟨h,
    (replay_times_periodic_with_bounded_jitter [0, 1] "rec.log" 0 6 0 2 (fun _ => 0) h).1⟩

theorem foldlM_loadOneJob_ok (l : List (String × Yaml)) :
    ∀ acc : List Job,
      (∀ f ∈ l, decodeSensorInfoList f.2 ≠ .error .otherError) →
      l.foldlM loadOneJob acc = .ok (acc ++ l.filterMap jobOfFile) := by
  induction l with
  | nil => intro acc _; rw [List.foldlM_nil]; simp; rfl
  | cons f l ih =>
    intro acc h
    have hf := h f (List.mem_cons_self f l)
    have hl : ∀ g ∈ l, decodeSensorInfoList g.2 ≠ .error .otherError :=
      fun g hg => h g (List.mem_cons_of_mem f hg)
    rw [List.foldlM_cons]
    rcases hd : decodeSensorInfoList f.2 with e | infos
    · cases e with
      | keyError =>
        have hstep : loadOneJob acc f = .ok acc := by simp [loadOneJob, hd]
        rw [hstep]
        show l.foldlM loadOneJob acc = _
        rw [ih acc hl]
        simp [jobOfFile, hd]
      | indexError =>
        have hstep : loadOneJob acc f = .ok acc := by simp [loadOneJob, hd]
        rw [hstep]
        show l.foldlM loadOneJob acc = _
        rw [ih acc hl]
        simp [jobOfFile, hd]
      | otherError => exact absurd hd hf
    · have hstep : loadOneJob acc f =
          .ok (acc ++ [Job.init (f.1.replace ".yaml" "") infos]) := by
        simp [loadOneJob, hd]
      rw [hstep]
      show l.foldlM loadOneJob (acc ++ [Job.init (f.1.replace ".yaml" "") infos]) = _
      rw [ih _ hl]
      simp [jobOfFile, hd]

theorem foldlM_loadOneJob_propagates (pre : List (String × Yaml)) :
    ∀ (acc : List Job) (f : String × Yaml) (post : List (String × Yaml)),
      (∀ g ∈ pre, decodeSensorInfoList g.2 ≠ .error .otherError) →
      decodeSensorInfoList f.2 = .error .otherError →
      (pre ++ f :: post).foldlM loadOneJob acc = .error .otherError := by
  induction pre with
  | nil =>
    intro acc f post _ hf
    rw [List.nil_append, List.foldlM_cons]
    have hstep : loadOneJob acc f = .error .otherError := by simp [loadOneJob, hf]
    rw [hstep]
    rfl
  | cons g pre ih =>
    intro acc f post h hf
    rw [List.cons_append, List.foldlM_cons]
    have hg := h g (List.mem_cons_self g pre)
    have hpre : ∀ g' ∈ pre, decodeSensorInfoList g'.2 ≠ .error .otherError :=
      fun g' hg' => h g' (List.mem_cons_of_mem g hg')
    rcases hd : decodeSensorInfoList g.2 with e | infos
    · cases e with
      | keyError =>
        have hstep : loadOneJob acc g = .ok acc := by simp [loadOneJob, hd]
        rw [hstep]; exact ih acc f post hpre hf
      | indexError =>
        have hstep : loadOneJob acc g = .ok acc := by simp [loadOneJob, hd]
        rw [hstep]; exact ih acc f post hpre hf
      | otherError => exact absurd hd hg
    · have hstep : loadOneJob acc g =
          .ok (acc ++ [Job.init (g.1.replace ".yaml" "") infos]) := by
        simp [loadOneJob, hd]
      rw [hstep]
      exact ih _ f post hpre hf

/-- C3: while decoding a job YAML file's sensor entries only `KeyError` and
`IndexError` are caught: such a file is skipped and loading continues, so on
a listing whose `.yaml` files raise no other exception `load_all` returns
exactly one `Job` per `.yaml` file whose decode succeeds (in listing order);
and if some `.yaml` file's decode raises any other exception, it propagates
out of `load_all`. -/
theorem load_all_catches_only_key_lookup_errors (files : List (String × Yaml)) :
    ((∀ f ∈ files.filter (fun f => pyEndsWith f.1 ".yaml"),
        decodeSensorInfoList f.2 ≠ .error .otherError) →
      JobYamlLoader.load_all files =
        .ok ((files.filter (fun f => pyEndsWith f.1 ".yaml")).filterMap jobOfFile)) ∧
    (∀ pre f post,
      files.filter (fun f => pyEndsWith f.1 ".yaml") = pre ++ f :: post →
      (∀ g ∈ pre, decodeSensorInfoList g.2 ≠ .error .otherError) →
      decodeSensorInfoList f.2 = .error .otherError →
      JobYamlLoader.load_all files = .error .otherError) := by
  constructor
  · intro h
    unfold JobYamlLoader.load_all
    rw [foldlM_loadOneJob_ok _ [] h]
    rfl
  · intro pre f post hsplit hpre hf
    unfold JobYamlLoader.load_all
    rw [hsplit]
    exact foldlM_loadOneJob_propagates pre [] f post hpre hf

/-- Witness for C3 on a listing with one well-formed `.yaml` file, one
`.yaml` file missing a key, and one non-YAML file. -/
theorem load_all_catches_only_key_lookup_errors_witness :
    (∀ f ∈ (sampleListing.filter (fun f => pyEndsWith f.1 ".yaml")),
      decodeSensorInfoList f.2 ≠ .error .otherError) ∧
    JobYamlLoader.load_all sampleListing =
      .ok ((sampleListing.filter (fun f => pyEndsWith f.1 ".yaml")).filterMap jobOfFile) := by
  have h1 : decodeSensorInfoList (Yaml.list [sampleEntry]) =
      .ok [{ blueprint_name := .str "sensor.camera.rgb",
             transform := ⟨⟨1, 2, 3⟩, ⟨0, 90, 0⟩⟩,
             «attribute» := .map [("image_size_x", .num 800)] }] := rfl
  have h2 : decodeSensorInfoList (Yaml.list [.map [("unrelated", .null)]]) =
      .error .keyError := rfl
  have hflt : sampleListing.filter (fun f => pyEndsWith f.1 ".yaml") =
      [("job_a.yaml", .list [sampleEntry]),
       ("broken.yaml", .list [.map [("unrelated", .null)]])] := rfl
  have h : ∀ f ∈ (sampleListing.filter (fun f => pyEndsWith f.1 ".yaml")),
      decodeSensorInfoList f.2 ≠ .error .otherError := by
    intro f hf
    rw [hflt] at hf
    simp only [List.mem_cons, List.not_mem_nil, or_false] at hf
    rcases hf with rfl | rfl
    · simp [h1]
    · simp [h2]
  exact ⟨h, (load_all_catches_only_key_lookup_errors sampleListing).1 h⟩

theorem mapM_ok_of_forall₂ {α β : Type} (f : α → Except PyErr β) :
    ∀ {l : List α} {r : List β},
      List.Forall₂ (fun a b => f a = .ok b) l r → l.mapM f = .ok r := by
  intro l r h
  induction h with
  | nil => rfl
  | cons hab _ ih =>
    rw [List.mapM_cons, hab, ih]
    rfl

theorem exceptOkBind {ε α β : Type} (a : α) (f : α → Except ε β) :
    (Except.ok a >>= f) = f a := rfl

/-- C6: for each sensor entry of a well-formed job YAML file the loader
builds a descriptor holding exactly the entry's blueprint identifier, the
transform assembled from the entry's `x`, `y`, `z`, `pitch`, `yaw`, `roll`
values, and the entry's attribute map (left empty when the attribute field
is empty/falsy), and the whole file decodes to those descriptors in entry
order. -/
theorem decode_sensor_entry_fields :
    (∀ (kvs tkvs : List (String × Yaml)) (bp attr : Yaml)
        (xv yv zv pv yawv rv : Yaml) (x y z pitch yaw roll : ℚ),
      kvs.lookup "blueprint_name" = some bp →
      kvs.lookup "transform" = some (.map tkvs) →
      tkvs.lookup "x" = some xv → xv.asNum = .ok x →
      tkvs.lookup "y" = some yv → yv.asNum = .ok y →
      tkvs.lookup "z" = some zv → zv.asNum = .ok z →
      tkvs.lookup "pitch" = some pv → pv.asNum = .ok pitch →
      tkvs.lookup "yaw" = some yawv → yawv.asNum = .ok yaw →
      tkvs.lookup "roll" = some rv → rv.asNum = .ok roll →
      kvs.lookup "attribute" = some attr →
      decodeSensorInfo (.map kvs) = .ok
        { blueprint_name := bp,
          transform := ⟨⟨x, y, z⟩, ⟨pitch, yaw, roll⟩⟩,
          «attribute» := if attr.truthy then attr else .map [] }) ∧
    (∀ (entries : List Yaml) (infos : List SensorInfo),
      List.Forall₂ (fun d r => decodeSensorInfo d = .ok r) entries infos →
      decodeSensorInfoList (.list entries) = .ok infos) := by
  constructor
  · intro kvs tkvs bp attr xv yv zv pv yawv rv x y z pitch yaw roll
      hbp htf hx hxn hy hyn hz hzn hp hpn hyaw hyawn hr hrn hattr
    simp [decodeSensorInfo, Yaml.getKey, exceptOkBind, hbp, htf, hx, hxn, hy,
      hyn, hz, hzn, hp, hpn, hyaw, hyawn, hr, hrn, hattr]
  · intro entries infos h
    unfold decodeSensorInfoList
    show (Yaml.list entries).pyIter >>= _ = _
    rw [show (Yaml.list entries).pyIter = .ok entries from rfl]
    show entries.mapM decodeSensorInfo = _
    exact mapM_ok_of_forall₂ decodeSensorInfo h

/-- Witness for C6 at a concrete well-formed entry. -/
theorem decode_sensor_entry_fields_witness :
    decodeSensorInfo sampleEntry = .ok
      { blueprint_name := .str "sensor.camera.rgb",
        transform := ⟨⟨1, 2, 3⟩, ⟨0, 90, 0⟩⟩,
        «attribute» := if (Yaml.map [("image_size_x", .num 800)]).truthy
          then Yaml.map [("image_size_x", .num 800)] else .map [] } :=
  decode_sensor_entry_fields.1
    [("blueprint_name", .str "sensor.camera.rgb"),
     ("transform", .map [("x", .num 1), ("y", .num 2), ("z", .num 3),
                         ("pitch", .num 0), ("yaw", .num 90), ("roll", .num 0)]),
     ("attribute", .map [("image_size_x", .num 800)])]
    [("x", .num 1), ("y", .num 2), ("z", .num 3),
     ("pitch", .num 0), ("yaw", .num 90), ("roll", .num 0)]
    (.str "sensor.camera.rgb") (.map [("image_size_x", .num 800)])
    (.num 1) (.num 2) (.num 3) (.num 0) (.num 90) (.num 0)
    1 2 3 0 90 0
    rfl rfl rfl rfl rfl rfl rfl rfl rfl rfl rfl rfl rfl rfl rfl

/-- C7: the scenario loader produces one `ScenarioInfo` per entry of the
index file, in file order, each carrying the entry's `name`, the record file
path (as resolved by the constructor), the `time.start` / `time.end` window
bounds, and the `ego_vehicle_actor_id`. -/
theorem scenario_loader_fields (appRoot : String) (resolve : String → String) :
    (∀ (kvs tkvs : List (String × Yaml)) (nm tsv tev egov : Yaml) (p : String),
      kvs.lookup "name" = some nm →
      kvs.lookup "record_file" = some (.str p) →
      kvs.lookup "time" = some (.map tkvs) →
      tkvs.lookup "start" = some tsv →
      tkvs.lookup "end" = some tev →
      kvs.lookup "ego_vehicle_actor_id" = some egov →
      decodeScenarioInfo appRoot resolve (.map kvs) = .ok
        { name := nm, record_path := pathJoin appRoot (resolve p),
          time_start := tsv, time_end := tev, ego_vehicle_actor_id := egov }) ∧
    (∀ (entries : List Yaml) (infos : List ScenarioInfo),
      List.Forall₂
        (fun d r => decodeScenarioInfo appRoot resolve d = .ok r) entries infos →
      ScenarioInfoYamlLoader.load_all appRoot resolve (.list entries) = .ok infos ∧
      infos.length = entries.length) := by
  constructor
  · intro kvs tkvs nm tsv tev egov p hnm hrf htm hts hte hego
    simp [decodeScenarioInfo, ScenarioInfo.init, Yaml.getKey, Yaml.asStr,
      exceptOkBind, hnm, hrf, htm, hts, hte, hego]
  · intro entries infos h
    constructor
    · unfold ScenarioInfoYamlLoader.load_all
      show (Yaml.list entries).pyIter >>= _ = _
      rw [show (Yaml.list entries).pyIter = .ok entries from rfl]
      show entries.mapM (decodeScenarioInfo appRoot resolve) = _
      exact mapM_ok_of_forall₂ (decodeScenarioInfo appRoot resolve) h
    · exact h.length_eq.symm

/-- A concrete scenario index entry, used to instantiate theorems. -/
theorem scenario_loader_fields_witness :
    decodeScenarioInfo "/app" (fun p => "/cwd/" ++ p)
        (.map [("name", .str "town_run"),
               ("record_file", .str "rec.log"),
               ("time", .map [("start", .num 5), ("end", .num 20)]),
               ("ego_vehicle_actor_id", .num 48)]) = .ok
      { name := .str "town_run",
        record_path := pathJoin "/app" ("/cwd/" ++ "rec.log"),
        time_start := .num 5, time_end := .num 20,
        ego_vehicle_actor_id := .num 48 } ∧
    ScenarioInfoYamlLoader.load_all "/app" (fun p => "/cwd/" ++ p) (.list []) =
      .ok [] :=
  ⟨(scenario_loader_fields "/app" (fun p => "/cwd/" ++ p)).1
      [("name", .str "town_run"),
       ("record_file", .str "rec.log"),
       ("time", .map [("start", .num 5), ("end", .num 20)]),
       ("ego_vehicle_actor_id", .num 48)]
      [("start", .num 5), ("end", .num 20)]
      (.str "town_run") (.num 5) (.num 20) (.num 48) "rec.log"
      rfl rfl rfl rfl rfl rfl,
   ((scenario_loader_fields "/app" (fun p => "/cwd/" ++ p)).2 [] []
      List.Forall₂.nil).1⟩

theorem charVal_digitChar : ∀ m, m < 10 → charVal (Nat.digitChar m) = m := by decide

theorem toDigitsCore_append (b : ℕ) :
    ∀ (f n : ℕ) (acc : List Char),
      Nat.toDigitsCore b f n acc = Nat.toDigitsCore b f n [] ++ acc := by
  intro f
  induction f with
  | zero => intro n acc; simp [Nat.toDigitsCore]
  | succ f ih =>
    intro n acc
    simp only [Nat.toDigitsCore]
    by_cases h : n / b = 0
    · simp [h]
    · simp only [h, if_false]
      rw [ih (n / b) (Nat.digitChar (n % b) :: acc), ih (n / b) [Nat.digitChar (n % b)]]
      simp

theorem digitsVal_toDigitsCore : ∀ (n f : ℕ), n < f →
    digitsVal (Nat.toDigitsCore 10 f n []) = n := by
  intro n
  induction n using Nat.strong_induction_on with
  | _ n ih =>
    intro f hf
    cases f with
    | zero => omega
    | succ f =>
      simp only [Nat.toDigitsCore]
      by_cases h : n / 10 = 0
      · have hn : n < 10 := by omega
        simp [h, digitsVal, Nat.mod_eq_of_lt hn]
        exact charVal_digitChar n hn
      · simp only [h, if_false]
        rw [toDigitsCore_append 10 f (n / 10) [Nat.digitChar (n % 10)]]
        have hd : n / 10 < n := Nat.div_lt_self (by omega) (by omega)
        have hIH : digitsVal (Nat.toDigitsCore 10 f (n / 10) []) = n / 10 :=
          ih (n / 10) hd f (by omega)
        simp [digitsVal, List.foldl_append] at hIH ⊢
        rw [hIH, charVal_digitChar (n % 10) (by omega)]
        omega

theorem natRepr_injective : Function.Injective Nat.repr := by
  intro m n h
  have hm : digitsVal (Nat.toDigits 10 m) = m :=
    digitsVal_toDigitsCore m (m + 1) (by omega)
  have hn : digitsVal (Nat.toDigits 10 n) = n :=
    digitsVal_toDigitsCore n (n + 1) (by omega)
  have hlist : Nat.toDigits 10 m = Nat.toDigits 10 n := by
    have hdata := congrArg String.data h
    simpa [Nat.repr, List.asString] using hdata
  rw [← hm, ← hn, hlist]

theorem toString_nat_injective : Function.Injective (fun n : ℕ => toString n) :=
  fun _m _n h => natRepr_injective h

theorem step_preserves_identity (s : Sensor) (op : SensorOp) :
    (s.step op).1.seq_id = s.seq_id ∧
    (s.step op).1.output_directory_path = s.output_directory_path := by
  cases op with
  | start_recording => exact ⟨rfl, rfl⟩
  | stop_recording => exact ⟨rfl, rfl⟩
  | record_this => exact ⟨rfl, rfl⟩
  | callback data =>
    by_cases hr : s.is_recording
    · by_cases hc : s.record_counter_current ≥ s.record_counter_target
      · simp [Sensor.step, Sensor.data_callback, hr, hc]
      · cases data <;> simp [Sensor.step, Sensor.data_callback, hr, hc]
    · simp [Sensor.step, Sensor.data_callback, hr]

theorem data_callback_write_dir (s : Sensor) (data : SensorData) :
    ∀ w ∈ (s.data_callback data).2,
      w.dir = s.output_directory_path ++ [toString s.seq_id] := by
  by_cases hr : s.is_recording
  · by_cases hc : s.record_counter_current ≥ s.record_counter_target
    · simp [Sensor.data_callback, hr, hc]
    · cases data <;> simp [Sensor.data_callback, hr, hc]
  · simp [Sensor.data_callback, hr]

theorem run_write_dir (ops : List SensorOp) : ∀ (s : Sensor) (w : WriteOp),
    w ∈ (s.run ops).2 →
    w.dir = s.output_directory_path ++ [toString s.seq_id] := by
  induction ops with
  | nil => intro s w hw; simp [Sensor.run] at hw
  | cons op ops ih =>
    intro s w hw
    simp only [Sensor.run, List.mem_append] at hw
    rcases hw with hw | hw
    · cases op with
      | start_recording => simp [Sensor.step] at hw
      | stop_recording => simp [Sensor.step] at hw
      | record_this => simp [Sensor.step] at hw
      | callback data => exact data_callback_write_dir s data w hw
    · have hrec := ih (s.step op).1 w hw
      rw [hrec, (step_preserves_identity s op).1, (step_preserves_identity s op).2]

theorem setupSensorsLoop_length (infos : List SensorInfo) :
    ∀ (c world vehicle : ℕ) (out : List String),
      (setupSensorsLoop infos c world vehicle out).length = infos.length := by
  induction infos with
  | nil => intro c world vehicle out; rfl
  | cons info rest ih =>
    intro c world vehicle out
    simp [setupSensorsLoop, ih]

theorem setupSensorsLoop_getElem (infos : List SensorInfo) :
    ∀ (c world vehicle : ℕ) (out : List String) (k : ℕ)
      (hk : k < infos.length)
      (hk2 : k < (setupSensorsLoop infos c world vehicle out).length),
      (setupSensorsLoop infos c world vehicle out)[k] =
        Sensor.init infos[k] (c + k) world vehicle out := by
  induction infos with
  | nil => intro c world vehicle out k hk hk2; simp at hk
  | cons info rest ih =>
    intro c world vehicle out k hk hk2
    cases k with
    | zero => rfl
    | succ k =>
      have hk' : k < rest.length := by simpa using hk
      have hk2' : k < (setupSensorsLoop rest (c + 1) world vehicle out).length := by
        rw [setupSensorsLoop_length]; exact hk'
      show (setupSensorsLoop rest (c + 1) world vehicle out)[k] = _
      rw [ih (c + 1) world vehicle out k hk' hk2']
      have harith : c + 1 + k = c + (k + 1) := by omega
      rw [harith]
      rfl

/-- C5: every file a sensor persists lands in the output subdirectory named
by that sensor's sequence index: `Job.setup` numbers the sensors `0..n-1` in
YAML order, sensor `k` only ever writes into
`<job output directory>/<k>/`, and distinct indices give distinct
subdirectories, so no sensor writes into another sensor's subdirectory. -/
theorem sensor_writes_under_own_index_subdir (j : Job) (world vehicle : ℕ)
    (io_out scen_name : String) :
    (j.setupSensors world vehicle (j.output_directory_path io_out scen_name)).length
      = j.sensor_infos.length ∧
    (∀ (k : ℕ)
       (hk : k < (j.setupSensors world vehicle
           (j.output_directory_path io_out scen_name)).length)
       (hk2 : k < j.sensor_infos.length),
      (j.setupSensors world vehicle
          (j.output_directory_path io_out scen_name))[k].seq_id = k ∧
      ∀ (ops : List SensorOp) (w : WriteOp),
        w ∈ ((j.setupSensors world vehicle
            (j.output_directory_path io_out scen_name))[k].run ops).2 →
        w.dir = j.output_directory_path io_out scen_name ++ [toString k]) ∧
    (∀ i k : ℕ, i ≠ k →
      j.output_directory_path io_out scen_name ++ [toString i] ≠
        j.output_directory_path io_out scen_name ++ [toString k]) := by
  refine ⟨setupSensorsLoop_length j.sensor_infos 0 world vehicle _, ?_, ?_⟩
  · intro k hk hk2
    have hget := setupSensorsLoop_getElem j.sensor_infos 0 world vehicle
      (j.output_directory_path io_out scen_name) k hk2 hk
    constructor
    · show (setupSensorsLoop j.sensor_infos 0 world vehicle
          (j.output_directory_path io_out scen_name))[k].seq_id = k
      rw [hget]
      show 0 + k = k
      omega
    · intro ops w hw
      have hdir := run_write_dir ops ((j.setupSensors world vehicle
        (j.output_directory_path io_out scen_name))[k]) w hw
      rw [hdir]
      show ((setupSensorsLoop j.sensor_infos 0 world vehicle
          (j.output_directory_path io_out scen_name))[k]).output_directory_path ++
            [toString ((setupSensorsLoop j.sensor_infos 0 world vehicle
              (j.output_directory_path io_out scen_name))[k]).seq_id] = _
      rw [hget]
      show j.output_directory_path io_out scen_name ++ [toString (0 + k)] = _
      rw [Nat.zero_add]
  · intro i k hik hcontra
    have hsing : [toString i] = [toString k] :=
      List.append_cancel_left hcontra
    have hstr : toString i = toString k := by
      injection hsing
    exact hik (toString_nat_injective hstr)

/-- Witness for C5 at a concrete two-sensor job. -/
theorem sensor_writes_under_own_index_subdir_witness :
    ((Job.init "job_a" [sampleInfo, sampleInfo]).setupSensors 7 9
        ((Job.init "job_a" [sampleInfo, sampleInfo]).output_directory_path "o" "s")).length
      = (Job.init "job_a" [sampleInfo, sampleInfo]).sensor_infos.length ∧
    (1 : ℕ) ≠ 0 ∧
    (Job.init "job_a" [sampleInfo, sampleInfo]).output_directory_path "o" "s"
        ++ [toString (1 : ℕ)] ≠
      (Job.init "job_a" [sampleInfo, sampleInfo]).output_directory_path "o" "s"
        ++ [toString (0 : ℕ)] :=
  ⟨(sensor_writes_under_own_index_subdir
      (Job.init "job_a" [sampleInfo, sampleInfo]) 7 9 "o" "s").1,
   one_ne_zero,
   (sensor_writes_under_own_index_subdir
      (Job.init "job_a" [sampleInfo, sampleInfo]) 7 9 "o" "s").2.2 1 0 one_ne_zero⟩

end CarlaGen
